import Mathlib

/-!
Verification development for the github-ai-actions automation pipeline.
Each definition embeds a function of the TypeScript sources under
`.github/actions/ai-automation/scripts/`; the doc comments name the script
and, where helpful, the lines embedded.  External effects (network responses,
file contents, subprocess outcomes) are passed in as explicit arguments.
-/

namespace GithubAIActions

/-- Equality on `Except` values is decidable when it is on both components. -/
instance {ε α : Type} [DecidableEq ε] [DecidableEq α] : DecidableEq (Except ε α)
  | .ok a, .ok b =>
    if h : a = b then .isTrue (by rw [h])
    else .isFalse (by intro hh; cases hh; exact h rfl)
  | .ok _, .error _ => .isFalse (by intro hh; cases hh)
  | .error _, .ok _ => .isFalse (by intro hh; cases hh)
  | .error a, .error b =>
    if h : a = b then .isTrue (by rw [h])
    else .isFalse (by intro hh; cases hh; exact h rfl)

/-! ## Shared string helpers -/

/-- ASCII whitespace, as relevant to the strings this pipeline trims. -/
def isWhitespaceChar (c : Char) : Bool :=
  c = ' ' || c = '\t' || c = '\n' || c = '\r'

/-- Model of JavaScript's `String.prototype.trim` over ASCII whitespace. -/
def trimString (s : String) : String :=
  ⟨((s.data.dropWhile isWhitespaceChar).reverse.dropWhile isWhitespaceChar).reverse⟩

/-- Decimal value of a digit character. -/
def digitVal (c : Char) : Nat := c.toNat - 48

/-- Decimal number denoted by a list of digit characters. -/
def digitsToNat (ds : List Char) : Nat :=
  ds.foldl (fun acc c => acc * 10 + digitVal c) 0

/-- The character for a single decimal digit. -/
def digitChar : Nat → Char
  | 0 => '0' | 1 => '1' | 2 => '2' | 3 => '3' | 4 => '4'
  | 5 => '5' | 6 => '6' | 7 => '7' | 8 => '8' | 9 => '9'
  | _ => '?'

/-- Fuel-driven decimal rendering of a natural number, most significant digit
first. -/
def natDigitsAux : Nat → Nat → List Char
  | 0, _ => []
  | fuel + 1, n =>
    if n < 10 then [digitChar n]
    else natDigitsAux fuel (n / 10) ++ [digitChar (n % 10)]

/-- Decimal digits of a natural number. -/
def natDigits (n : Nat) : List Char := natDigitsAux (n + 1) n

/-- Decimal string of a natural number (JavaScript number-to-string
interpolation for non-negative integers). -/
def natToString (n : Nat) : String := ⟨natDigits n⟩

/-- Decimal string of an integer (JavaScript number-to-string interpolation). -/
def intToString : Int → String
  | .ofNat n => natToString n
  | .negSucc n => "-" ++ natToString (n + 1)

/-- Model of JavaScript's `parseInt(s, 10)`: skip leading whitespace, read an
optional sign and then the longest prefix of decimal digits, ignoring any
trailing characters; no digits means NaN, modelled as `none`. -/
def jsParseInt (s : String) : Option Int :=
  match s.data.dropWhile isWhitespaceChar with
  | '-' :: rest =>
    let ds := rest.takeWhile Char.isDigit
    if ds.isEmpty then none else some (-(digitsToNat ds : Int))
  | '+' :: rest =>
    let ds := rest.takeWhile Char.isDigit
    if ds.isEmpty then none else some (digitsToNat ds)
  | rest =>
    let ds := rest.takeWhile Char.isDigit
    if ds.isEmpty then none else some (digitsToNat ds)

/-- Splitting accumulator: JavaScript's `String.prototype.split` on a
single-character separator. -/
def splitOnCharAux (sep : Char) : List Char → List Char → List (List Char)
  | [], acc => [acc.reverse]
  | c :: rest, acc =>
    if c = sep then acc.reverse :: splitOnCharAux sep rest []
    else splitOnCharAux sep rest (c :: acc)

/-- JavaScript's `s.split(sep)` for a one-character separator. -/
def splitOnChar (sep : Char) (s : String) : List String :=
  (splitOnCharAux sep s.data []).map (fun l => ⟨l⟩)

/-- Joining with a separator: JavaScript's `Array.prototype.join`. -/
def joinSep (sep : String) : List String → String
  | [] => ""
  | [s] => s
  | s :: rest => s ++ sep ++ joinSep sep rest

/-- Embeds `parseRepository` of `scripts/utils.ts` (also inlined in
`prepare-prompt.ts:252-257`): split `owner/repo` on `/` and fail unless both
parts are non-empty. -/
def parseRepository (repository : String) : Except String (String × String) :=
  let parts := splitOnChar '/' repository
  let owner := parts.getD 0 ""
  let repo := parts.getD 1 ""
  if owner = "" ∨ repo = "" then
    .error ("Invalid REPOSITORY format: " ++ repository ++ ". Expected 'owner/repo'")
  else .ok (owner, repo)

/-! ## Template substitution -/

/-- The placeholder text for a variable name: `{{NAME}}`. -/
def placeholderOf (k : String) : String := "\x7b\x7b" ++ k ++ "\x7d\x7d"

/-- The placeholder as a character list. -/
def phList (k : String) : List Char :=
  '\x7b' :: '\x7b' :: (k.data ++ ['\x7d', '\x7d'])

/-- The left-to-right scan of JavaScript's `s.replace(pattern, () => rep)`
with a global literal pattern: each occurrence of `pat` is replaced by `rep`,
scanning resumes after the replacement (the replacement itself is not
re-scanned by this pass), and the function replacement means no `$`-pattern
interpretation.  The first argument is fuel, instantiated with the scanned
text's length. -/
def replaceAux (pat rep : List Char) : Nat → List Char → List Char
  | 0, s => s
  | _ + 1, [] => []
  | fuel + 1, c :: cs =>
    if pat.isPrefixOf (c :: cs) then
      rep ++ replaceAux pat rep fuel ((c :: cs).drop pat.length)
    else c :: replaceAux pat rep fuel cs

/-- One per-key replacement pass
`result.replace(new RegExp("\\{\\{" + key + "\\}\\}", "g"), () => value)`
as performed by `substituteVariables` in `scripts/utils.ts:99-105` (and, with
fixed keys, by `prepare-prompt.ts:199-226`). -/
def replaceVar (s : String) (key value : String) : String :=
  ⟨replaceAux (phList key) value.data s.data.length s.data⟩

/-- Embeds `substituteVariables` of `scripts/utils.ts:95-106`: one literal
replacement pass per mapping entry, applied sequentially in entry order to
the accumulating result. -/
def substituteVariables (template : String) (vars : List (String × String)) : String :=
  vars.foldl (fun result kv => replaceVar result kv.1 kv.2) template

/-! ## PR-data fetching (prepare-prompt.ts) -/

/-- Embeds the `PRData` interface of `prepare-prompt.ts:119-129`. -/
structure PRData where
  title : String
  number : Int
  author : String
  body : String
  baseBranch : String
  headRef : String
  baseRef : String
  changedFiles : List String
  diff : String
deriving Repr, DecidableEq

/-- The pull-request fields of the GraphQL response that `fetchPRData` reads
(`prepare-prompt.ts:155-192`): `filePaths` is `none` when the `files` field
is absent, `authorLogin` is `none` when the author is null. -/
structure PullRequestQueryData where
  title : String
  body : String
  authorLogin : Option String
  baseRefName : String
  headRefOid : String
  filePaths : Option (List String)
deriving Repr

/-- The bracketed placeholder substituted for the diff when diff computation
fails (`prepare-prompt.ts:180`). -/
def diffPlaceholder (errMsg : String) : String :=
  "[Unable to fetch diff: " ++ errMsg ++ "]"

/-- Embeds `fetchPRData` of `prepare-prompt.ts:143-194`.  The GraphQL
response (`none` for a null pull request) and the joint outcome of the
`git fetch`/`git diff` subprocesses are explicit arguments; a failed diff
subprocess degrades to `diffPlaceholder` instead of failing the fetch, while
a null pull request throws `PR #N not found`. -/
def fetchPRData (prNumber : Int) (queryResult : Option PullRequestQueryData)
    (diffResult : Except String String) : Except String PRData :=
  match queryResult with
  | none => .error ("PR #" ++ intToString prNumber ++ " not found")
  | some pr =>
    .ok { title := pr.title
          number := prNumber
          author := pr.authorLogin.getD "unknown"
          body := pr.body
          baseBranch := pr.baseRefName
          headRef := pr.headRefOid
          baseRef := pr.baseRefName
          changedFiles := pr.filePaths.getD []
          diff := match diffResult with
                  | .ok diffText => diffText
                  | .error e => diffPlaceholder e }

/-- The fixed variable mapping built by `substituteVariables` of
`prepare-prompt.ts:199-226`, in the order the eight replacement passes run;
`{{REPOSITORY}}` reads the `REPOSITORY` environment value. -/
def promptVariables (data : PRData) (repositoryEnv : String) : List (String × String) :=
  [("PR_DIFF", data.diff),
   ("PR_TITLE", data.title),
   ("PR_NUMBER", intToString data.number),
   ("PR_AUTHOR", data.author),
   ("PR_BODY", data.body),
   ("CHANGED_FILES", joinSep "\n" data.changedFiles),
   ("REPOSITORY", repositoryEnv),
   ("BASE_BRANCH", data.baseBranch)]

/-- Embeds `substituteVariables` of `prepare-prompt.ts:199-226`: the eight
sequential fixed-key replacement passes. -/
def substituteVariablesPR (template : String) (data : PRData)
    (repositoryEnv : String) : String :=
  substituteVariables template (promptVariables data repositoryEnv)

/-- The environment of the prepare-prompt stage (`prepare-prompt.ts:230-260`);
empty strings model absent variables.  `planEnv` models any `PLAN` value the
stage environment may carry (spec §6); `prepare-prompt.ts` never reads it. -/
structure PreparePromptEnv where
  promptTemplate : String
  prNumberInput : String
  githubToken : String
  repository : String
  baseBranchInput : String
  planEnv : String
deriving Repr

/-- The named outputs emitted by prepare-prompt `main`
(`prepare-prompt.ts:276-281`). -/
structure PreparePromptOutputs where
  finalPrompt : String
  baseBranch : String
  prNumber : String
  prTitle : String
  prAuthor : String
  prBody : String
deriving Repr, DecidableEq

/-- The failure wrapper of prepare-prompt's top-level catch
(`prepare-prompt.ts:288`). -/
def prepFail (m : String) : String := "Failed to prepare prompt: " ++ m

/-- Embeds `main` of `prepare-prompt.ts:228-291`: validate the inputs,
resolve the base branch (explicit input or the repository default), fetch the
PR data, substitute the template, and emit the outputs.  `defaultBranch` is
the repository's default branch as the API would report it. -/
def preparePromptMain (env : PreparePromptEnv) (defaultBranch : String)
    (queryResult : Option PullRequestQueryData)
    (diffResult : Except String String) : Except String PreparePromptOutputs :=
  if env.promptTemplate = "" then
    .error (prepFail "PROMPT_TEMPLATE environment variable is required")
  else
    match jsParseInt env.prNumberInput with
    | none =>
      .error (prepFail "PR_NUMBER environment variable is required and must be a number")
    | some n =>
      if n = 0 then
        .error (prepFail "PR_NUMBER environment variable is required and must be a number")
      else if env.githubToken = "" then
        .error (prepFail "GITHUB_TOKEN environment variable is required")
      else if env.repository = "" then
        .error (prepFail "REPOSITORY environment variable is required")
      else
        match parseRepository env.repository with
        | .error m => .error (prepFail m)
        | .ok _ =>
          match fetchPRData n queryResult diffResult with
          | .error m => .error (prepFail m)
          | .ok prData =>
            .ok { finalPrompt :=
                    substituteVariablesPR env.promptTemplate prData env.repository
                  baseBranch :=
                    if env.baseBranchInput = "" then defaultBranch else env.baseBranchInput
                  prNumber := intToString prData.number
                  prTitle := prData.title
                  prAuthor := prData.author
                  prBody := prData.body }

/-! ## PR-number resolution (extract-pr-number.ts) -/

/-- The outcome the issue lookup of `extract-pr-number.ts:19-23` would
produce: the fetched issue's optional `pull_request.url`, or a network
error. -/
inductive IssueLookup where
  | found (prUrl : Option String)
  | networkError (msg : String)
deriving Repr

/-- The warning logged when the issue lookup fails
(`extract-pr-number.ts:36-38`). -/
def issueFetchWarning (issueNumber : Int) (msg : String) : String :=
  "Failed to fetch issue #" ++ intToString issueNumber ++ ": " ++ msg

/-- Embeds `extractPRNumberFromIssue` of `extract-pr-number.ts:12-41`:
returns the PR number parsed from the trailing path segment of the issue's
`pull_request.url`, or `null` (with a warning on a caught network error),
together with the warnings logged. -/
def extractPRNumberFromIssue (issueNumber : Int) (lookup : IssueLookup) :
    Option Int × List String :=
  match lookup with
  | .networkError msg => (none, [issueFetchWarning issueNumber msg])
  | .found none => (none, [])
  | .found (some url) =>
    let lastPart := ((splitOnChar '/' url).getLast?).getD ""
    match jsParseInt lastPart with
    | some n => (some n, [])
    | none => (none, [])

/-- The environment and event context visible to `extract-pr-number.ts`
(empty strings model absent variables), plus the response the issue lookup
would return. -/
structure ResolverEnv where
  prNumberInput : String
  eventName : String
  repository : String
  githubToken : String
  eventPullRequestNumber : String
  eventIssueNumber : String
  issueLookup : IssueLookup

/-- Result of one resolver run: the resolved number or the stage failure, the
number of network reads performed, and the warnings logged. -/
structure ResolveOutcome where
  result : Except String Int
  networkCalls : Nat
  warnings : List String
deriving Repr, DecidableEq

/-- The failure wrapper of the resolver's top-level catch
(`extract-pr-number.ts:109`). -/
def extractFail (m : String) : String := "Failed to extract PR number: " ++ m

/-- The final error thrown when no PR number could be extracted
(`extract-pr-number.ts:104-106`). -/
def noPRNumberError (eventName : String) : String :=
  "Could not extract PR number from event context. Event name: " ++ eventName ++
    ". Please provide pr_number input explicitly, or trigger from a PR-related event."

/-- The error thrown when the looked-up issue yields no PR number
(`extract-pr-number.ts:98`). -/
def notAPullRequestError (issueNumber : Int) : String :=
  "Issue #" ++ intToString issueNumber ++ " is not a pull request"

/-- The issue-comment branch of resolver `main`
(`extract-pr-number.ts:88-106`): a truthy, parseable issue number triggers
the single issue lookup; a `null` lookup result (including a caught network
error) throws the issue-specific error; otherwise the final descriptive error
names the observed event name. -/
def resolveFromIssue (env : ResolverEnv) : ResolveOutcome :=
  if env.eventIssueNumber ≠ "" then
    match jsParseInt env.eventIssueNumber with
    | some issueNum =>
      match extractPRNumberFromIssue issueNum env.issueLookup with
      | (some prNum, ws) => ⟨.ok prNum, 1, ws⟩
      | (none, ws) =>
        ⟨.error (extractFail (notAPullRequestError issueNum)), 1, ws⟩
    | none => ⟨.error (extractFail (noPRNumberError env.eventName)), 0, []⟩
  else ⟨.error (extractFail (noPRNumberError env.eventName)), 0, []⟩

/-- The event-context part of resolver `main` (`extract-pr-number.ts:56-106`):
require the repository and token, parse the repository, then try the
pull-request event number before the issue-comment branch. -/
def resolveFromContext (env : ResolverEnv) : ResolveOutcome :=
  if env.repository = "" then
    ⟨.error (extractFail "GITHUB_REPOSITORY environment variable is required"), 0, []⟩
  else if env.githubToken = "" then
    ⟨.error (extractFail "GITHUB_TOKEN environment variable is required"), 0, []⟩
  else
    match parseRepository env.repository with
    | .error m => ⟨.error (extractFail m), 0, []⟩
    | .ok _ =>
      if env.eventPullRequestNumber ≠ "" then
        match jsParseInt env.eventPullRequestNumber with
        | some n => ⟨.ok n, 0, []⟩
        | none => resolveFromIssue env
      else resolveFromIssue env

/-- Embeds `main` of `extract-pr-number.ts:43-112`: a truthy explicit
`PR_NUMBER` whose trimmed value parses as an integer is used immediately
(before any other check or network call); otherwise resolution proceeds from
the event context. -/
def resolvePRNumber (env : ResolverEnv) : ResolveOutcome :=
  if env.prNumberInput ≠ "" ∧ trimString env.prNumberInput ≠ "" then
    match jsParseInt (trimString env.prNumberInput) with
    | some n => ⟨.ok n, 0, []⟩
    | none => resolveFromContext env
  else resolveFromContext env

/-! ## Plan extraction (extract-plan-from-file.ts) -/

/-- One element of an execution-log message's content array
(`extract-plan-from-file.ts:19`); an absent or empty `text` is modelled as
`""` (both are falsy in the script). -/
structure ExecPart where
  type : String
  text : String
deriving Repr

/-- The content of one execution-log message: a plain string, an array of
parts, or absent. -/
inductive ExecContent where
  | str (s : String)
  | parts (ps : List ExecPart)
  | absent
deriving Repr

/-- JavaScript truthiness of a message's `content` field: absent and the
empty string are falsy; any array is truthy. -/
def contentTruthy : ExecContent → Bool
  | .absent => false
  | .str s => s ≠ ""
  | .parts _ => true

/-- One message of the parsed execution log
(`extract-plan-from-file.ts:17-20`). -/
structure ExecMessage where
  type : String
  content : ExecContent
deriving Repr

/-- The text fragments one message contributes
(`extract-plan-from-file.ts:29-39`): a string content is pushed whole; from
an array, the `text` of parts typed `"text"` with truthy text. -/
def messageTexts (m : ExecMessage) : List String :=
  match m.content with
  | .str s => [s]
  | .parts ps =>
    ps.filterMap (fun p => if p.type = "text" ∧ p.text ≠ "" then some p.text else none)
  | .absent => []

/-- Embeds `extractPlanFromExecutionFile` of
`extract-plan-from-file.ts:14-46` applied to an already-parsed message list:
keep messages typed `"assistant"`, or `"message"` with truthy content;
collect their text fragments; join with blank lines and trim, or `null` when
nothing was collected. -/
def extractPlanFromExecutionFile (messages : List ExecMessage) : Option String :=
  let planParts :=
    (messages.filter (fun m =>
      m.type == "assistant" || (m.type == "message" && contentTruthy m.content))).flatMap
      messageTexts
  if planParts.isEmpty then none
  else some (trimString (joinSep "\n\n" planParts))

/-- The observable state of the plan file: absent, unreadable (read throws,
logged as a warning), or readable content. -/
inductive PlanFileState where
  | absent
  | unreadable (err : String)
  | content (text : String)
deriving Repr

/-- The observable state of the `EXECUTION_FILE` input: unset, set but
missing, set but unreadable/unparseable (the extraction's catch yields
`null`), or parsed into messages. -/
inductive ExecutionFileState where
  | notConfigured
  | missing (path : String)
  | unparseable (path : String) (err : String)
  | parsed (path : String) (messages : List ExecMessage)
deriving Repr

/-- The configured `EXECUTION_FILE` path, when set. -/
def execFilePath : ExecutionFileState → Option String
  | .notConfigured => none
  | .missing p => some p
  | .unparseable p _ => some p
  | .parsed p _ => some p

/-- The error thrown when no plan was found, naming the checked path(s)
(`extract-plan-from-file.ts:66-70`), wrapped by the script's catch
(`extract-plan-from-file.ts:76-78`). -/
def planNotFoundError (planFile : String) (execPath : Option String) : String :=
  "Failed to extract plan: Plan not found. Checked " ++ planFile ++
    (match execPath with
     | none => ""
     | some p => " and " ++ p)

/-- The `plan` variable after the plan-file read of
`extract-plan-from-file.ts:52-58`: the trimmed content when the file is
readable, `null` otherwise (the read failure is only logged). -/
def planFromFile : PlanFileState → Option String
  | .content text => some (trimString text)
  | _ => none

/-- The value the fallback step of `extract-plan-from-file.ts:61-64` would
leave: extraction from a configured, existing execution file (its caught
failures yielding `null`); the plan-file value when no fallback is
attempted. -/
def fallbackPlan (planState : PlanFileState) : ExecutionFileState → Option String
  | .parsed _ msgs => extractPlanFromExecutionFile msgs
  | .unparseable _ _ => none
  | .missing _ => planFromFile planState
  | .notConfigured => planFromFile planState

/-- The `plan` variable after the fallback step of
`extract-plan-from-file.ts:61-64`: the fallback applies only when the plan is
still null or empty. -/
def planAfterFallback (planState : PlanFileState)
    (execState : ExecutionFileState) : Option String :=
  if (planFromFile planState).getD "" = "" then fallbackPlan planState execState
  else planFromFile planState

/-- Embeds the top-level script of `extract-plan-from-file.ts:48-83`: read
and trim the plan file if it exists; if the plan is still null or empty and
an execution file is configured and exists, fall back to extracting assistant
text from it; fail naming the checked path(s) if the plan is still null or
empty. -/
def extractPlanMain (planFile : String) (planState : PlanFileState)
    (execState : ExecutionFileState) : Except String String :=
  match planAfterFallback planState execState with
  | some p =>
    if p = "" then .error (planNotFoundError planFile (execFilePath execState))
    else .ok p
  | none => .error (planNotFoundError planFile (execFilePath execState))

/-! ## LLM invocation (run-llm.ts) -/

/-- The fields of the `RunLLMConfig` interface (`run-llm.ts:17-41`) that the
two execution paths consult for their checks; empty strings model absent
optional credentials. -/
structure RunLLMConfig where
  provider : String
  prompt : String
  captureOutput : Bool
  anthropicApiKey : String
  claudeCodeOAuthToken : String
  openaiApiKey : String
deriving Repr

/-- The `RunLLMResult` shape (`run-llm.ts:43-49`) as populated by the two
execution paths (which never set the branch fields). -/
structure RunLLMResult where
  success : Bool
  output : Option String
  error : Option String
deriving Repr, DecidableEq

/-- The ambient state the runner interacts with: whether each CLI's version
probe succeeds, and the outcome the actual CLI run would produce. -/
structure CLIWorld where
  claudeAvailable : Bool
  codexAvailable : Bool
  execOutcome : Except String String

/-- The error thrown by `runCodex` when capture is disabled
(`run-llm.ts:169-171`). -/
def codexImplementationModeError : String :=
  "Codex implementation phase should use codex-action directly in the workflow, not this script"

/-- Embeds `runCodex` of `run-llm.ts:162-230`: require the OpenAI key, then
reject the non-capturing (implementation) mode, then probe the codex CLI,
then run it capturing trimmed stdout; every thrown error becomes a
`{success: false, error}` result.  The second component counts CLI
subprocesses launched (the version probe and the run). -/
def runCodex (config : RunLLMConfig) (w : CLIWorld) : RunLLMResult × Nat :=
  if config.openaiApiKey = "" then
    (⟨false, none, some "OPENAI_API_KEY is required for Codex"⟩, 0)
  else if config.captureOutput = false then
    (⟨false, none, some codexImplementationModeError⟩, 0)
  else if w.codexAvailable = false then
    (⟨false, none,
      some "Codex CLI not found. Codex plan phase requires codex CLI to be installed."⟩, 1)
  else
    match w.execOutcome with
    | .ok out => (⟨true, some (trimString out), none⟩, 2)
    | .error e => (⟨false, none, some e⟩, 2)

/-- Embeds `runClaudeCLI` of `run-llm.ts:54-155`: probe the claude CLI,
require a credential, then run it, capturing trimmed stdout only when capture
is enabled. -/
def runClaudeCLI (config : RunLLMConfig) (w : CLIWorld) : RunLLMResult × Nat :=
  if w.claudeAvailable = false then
    (⟨false, none,
      some "Claude CLI not found. Please install with: npm install -g @anthropic-ai/claude-code"⟩, 1)
  else if config.anthropicApiKey = "" ∧ config.claudeCodeOAuthToken = "" then
    (⟨false, none, some "ANTHROPIC_API_KEY or CLAUDE_CODE_OAUTH_TOKEN is required"⟩, 1)
  else
    match w.execOutcome with
    | .ok out =>
      ((if config.captureOutput then ⟨true, some (trimString out), none⟩
        else ⟨true, none, none⟩), 2)
    | .error e => (⟨false, none, some e⟩, 2)

/-- Embeds `runLLM` of `run-llm.ts:235-246`: dispatch on the provider; any
other value yields a uniform failure result. -/
def runLLM (config : RunLLMConfig) (w : CLIWorld) : RunLLMResult × Nat :=
  if config.provider = "claude" then runClaudeCLI config w
  else if config.provider = "codex" then runCodex config w
  else (⟨false, none, some ("Unknown provider: " ++ config.provider)⟩, 0)

/-! ## Commit and push (commit-and-push.ts) -/

/-- The git commands `commit-and-push.ts` can invoke, in program order; the
commands' argument strings are not modelled, only their kinds and
outcomes. -/
inductive GitCmd where
  | status
  | configUserName
  | configUserEmail
  | addAll
  | commit
  | push
deriving Repr, DecidableEq

/-- Run a command sequence against an outcome oracle, stopping at the first
failure; returns the outcome and the commands actually invoked. -/
def runGitSeq (gitRun : GitCmd → Except String Unit) :
    List GitCmd → Except String Unit × List GitCmd
  | [] => (.ok (), [])
  | c :: rest =>
    match gitRun c with
    | .ok _ =>
      let r := runGitSeq gitRun rest
      (r.1, c :: r.2)
    | .error e => (.error e, [c])

/-- The mutation sequence of `commit-and-push.ts:45-75`. -/
def mutationCmds : List GitCmd :=
  [GitCmd.configUserName, GitCmd.configUserEmail, GitCmd.addAll, GitCmd.commit, GitCmd.push]

/-- Result of one commit-and-push run: the stage outcome, the `has_changes`
output when one was emitted, and the git commands invoked. -/
structure CommitPushOutcome where
  result : Except String Unit
  hasChanges : Option Bool
  commands : List GitCmd
deriving Repr, DecidableEq

/-- Embeds `main` of `commit-and-push.ts:10-85`: require a branch name; check
`git status --porcelain` (a failed check is logged and treated as no
changes); with no changes, emit `has_changes=false` and return; otherwise run
the config/add/commit/push sequence, an error anywhere failing the stage
through the catch wrapper. -/
def commitAndPushMain (branchName : String) (statusResult : Except String String)
    (gitRun : GitCmd → Except String Unit) : CommitPushOutcome :=
  if branchName = "" then
    ⟨.error "Failed to commit and push: BRANCH_NAME environment variable is required",
      none, []⟩
  else
    match statusResult with
    | .error _ => ⟨.ok (), some false, [GitCmd.status]⟩
    | .ok out =>
      if trimString out = "" then ⟨.ok (), some false, [GitCmd.status]⟩
      else
        match runGitSeq gitRun mutationCmds with
        | (.ok _, cmds) => ⟨.ok (), some true, GitCmd.status :: cmds⟩
        | (.error e, cmds) =>
          ⟨.error ("Failed to commit and push: " ++ e), none, GitCmd.status :: cmds⟩

/-! ## Branch creation (create-branch.ts) -/

/-- Embeds the branch-name computation of `create-branch.ts:17-25`:
`${branchPrefix}pr-${prNumber}-${timestamp}` with the prefix defaulting to
`ai/` and the raw `PR_NUMBER` environment string interpolated as-is. -/
def generatedBranchName (branchPrefix prNumber : String) (timestamp : Nat) : String :=
  (if branchPrefix = "" then "ai/" else branchPrefix) ++
    "pr-" ++ prNumber ++ "-" ++ natToString timestamp

/-- Scan for the first occurrence of the tag `pr-` and return the characters
after it. -/
def findAfterTag : List Char → Option (List Char)
  | [] => none
  | c :: rest =>
    if (c == 'p') && (['r', '-'].isPrefixOf rest) then some (rest.drop 2)
    else findAfterTag rest

/-- Recover the PR number from a branch name by parsing its `pr-{N}-`
segment: the maximal digit run after the first `pr-` tag, which must be
non-empty and followed by `-`. -/
def recoverPRNumber (branch : String) : Option Nat :=
  match findAfterTag branch.data with
  | none => none
  | some rest =>
    let ds := rest.takeWhile Char.isDigit
    if ds.isEmpty then none
    else if (rest.drop ds.length).head? = some '-' then some (digitsToNat ds)
    else none

/-- Number of positions of `s` at which `pat` occurs (as a contiguous
segment). -/
def countOccurrences (pat : List Char) : List Char → Nat
  | [] => 0
  | c :: rest =>
    (if pat.isPrefixOf (c :: rest) then 1 else 0) + countOccurrences pat rest

/-! ## General lemmas -/

/-- The placeholder string's character data is `phList`. -/
theorem phList_eq (k : String) : (placeholderOf k).data = phList k := by
  simp [placeholderOf, phList, String.data_append]

/-- Length of a placeholder. -/
theorem phList_length (k : String) : (phList k).length = k.data.length + 4 := by
  simp [phList]

/-- A placeholder is never the empty list. -/
theorem phList_ne_nil (k : String) : phList k ≠ [] := by
  simp [phList]

/-- Scanning the empty text yields the empty text at any fuel. -/
theorem replaceAux_nil (pat rep : List Char) :
    ∀ fuel, replaceAux pat rep fuel [] = []
  | 0 => rfl
  | _ + 1 => rfl

/-- The character data of a replacement pass. -/
theorem replaceVar_data (s key value : String) :
    (replaceVar s key value).data =
      replaceAux (phList key) value.data s.data.length s.data := rfl

/-- The replacement scan is independent of the fuel as long as the fuel
covers the text's length. -/
theorem replaceAux_fuel (pat rep : List Char) (hpat : pat ≠ []) :
    ∀ fuel fuel' s, s.length ≤ fuel → s.length ≤ fuel' →
      replaceAux pat rep fuel s = replaceAux pat rep fuel' s := by
  intro fuel
  induction fuel with
  | zero =>
    intro fuel' s hs _
    have : s = [] := List.length_eq_zero.1 (Nat.le_zero.1 hs)
    subst this
    rw [replaceAux_nil, replaceAux_nil]
  | succ fuel ih =>
    intro fuel' s hs hs'
    match s with
    | [] => rw [replaceAux_nil, replaceAux_nil]
    | c :: cs =>
      match fuel' with
      | 0 => simp at hs'
      | fuel' + 1 =>
        by_cases hp : pat.isPrefixOf (c :: cs)
        · have hlen : pat.length ≤ (c :: cs).length :=
            (List.isPrefixOf_iff_prefix.1 hp).length_le
          have hpos : 0 < pat.length := List.length_pos.2 hpat
          simp only [replaceAux]
          rw [if_pos hp, if_pos hp]
          simp only [List.length_cons] at hs hs' hlen
          have h1 : ((c :: cs).drop pat.length).length ≤ fuel := by
            simp only [List.length_drop, List.length_cons]
            omega
          have h2 : ((c :: cs).drop pat.length).length ≤ fuel' := by
            simp only [List.length_drop, List.length_cons]
            omega
          rw [ih fuel' _ h1 h2]
        · simp only [replaceAux]
          rw [if_neg hp, if_neg hp]
          have h1 : cs.length ≤ fuel := by
            simp only [List.length_cons] at hs
            omega
          have h2 : cs.length ≤ fuel' := by
            simp only [List.length_cons] at hs'
            omega
          rw [ih fuel' cs h1 h2]

/-- One replacement step at a matched position. -/
theorem replaceAux_step (pat rep s : List Char) (m : Nat)
    (hs : s ≠ []) (hp : pat.isPrefixOf s = true) :
    replaceAux pat rep (m + 1) s = rep ++ replaceAux pat rep m (s.drop pat.length) := by
  match s with
  | [] => exact absurd rfl hs
  | c :: cs =>
    simp only [replaceAux]
    rw [if_pos hp]

/-- Characters other than an opening brace are copied through a replacement
pass unchanged. -/
theorem replaceAux_passthrough (k : String) (rep : List Char) :
    ∀ t0 rest fuel, '\x7b' ∉ t0 →
      replaceAux (phList k) rep (t0.length + fuel) (t0 ++ rest) =
        t0 ++ replaceAux (phList k) rep fuel rest := by
  intro t0
  induction t0 with
  | nil => intro rest fuel _; simp
  | cons c t0 ih =>
    intro rest fuel hc
    have hc0 : c ≠ '\x7b' := by
      intro he
      exact hc (by simp [he])
    have hnp : ¬ (phList k).isPrefixOf (c :: (t0 ++ rest)) = true := by
      intro hp
      obtain ⟨t, ht⟩ := List.isPrefixOf_iff_prefix.1 hp
      rw [phList] at ht
      have hhd := congrArg List.head? ht
      have : some '\x7b' = some c := hhd
      simp at this
      exact hc0 this.symm
    have harr : (c :: t0).length + fuel = (t0.length + fuel) + 1 := by
      simp
      omega
    rw [harr, List.cons_append]
    simp only [replaceAux]
    rw [if_neg hnp]
    rw [ih rest fuel (fun h => hc (List.mem_cons_of_mem c h))]
    simp

/-- A replacement pass substitutes the value for an occurrence of the key's
placeholder preceded by brace-free text, splices the value in verbatim
without re-scanning it, and continues after the placeholder. -/
theorem replaceVar_occurrence (k v t0 t2 : String) (h0 : '\x7b' ∉ t0.data) :
    replaceVar (t0 ++ placeholderOf k ++ t2) k v = t0 ++ v ++ replaceVar t2 k v := by
  apply String.ext
  simp only [replaceVar_data, String.data_append, phList_eq]
  rw [List.append_assoc]
  have hlen : (t0.data ++ (phList k ++ t2.data)).length =
      t0.data.length + ((phList k).length + t2.data.length) := by
    simp
  rw [hlen, replaceAux_passthrough k v.data t0.data (phList k ++ t2.data) _ h0]
  have hfuel : (phList k).length + t2.data.length =
      (t2.data.length + (k.data.length + 3)) + 1 := by
    rw [phList_length]
    omega
  have hpre : (phList k).isPrefixOf (phList k ++ t2.data) = true :=
    List.isPrefixOf_iff_prefix.2 (List.prefix_append _ _)
  rw [hfuel, replaceAux_step (phList k) v.data (phList k ++ t2.data) _
    (by simp [phList]) hpre]
  rw [List.drop_left]
  rw [replaceAux_fuel (phList k) v.data (phList_ne_nil k) _ t2.data.length t2.data
    (by omega) (Nat.le_refl _)]
  simp [List.append_assoc]

/-- Unfolding of the diff placeholder's character data. -/
theorem diffPlaceholder_data (e : String) :
    (diffPlaceholder e).data =
      "[Unable to fetch diff: ".data ++ e.data ++ "]".data := by
  simp [diffPlaceholder, String.data_append]

/-- The two fatal resolver failures are distinct: the issue-specific message
never coincides with the final event-type message. -/
theorem issueError_ne_finalError (issueNumber : Int) (eventName : String) :
    extractFail (notAPullRequestError issueNumber) ≠
      extractFail (noPRNumberError eventName) := by
  intro h
  have h2 : (extractFail (notAPullRequestError issueNumber)).data =
      (extractFail (noPRNumberError eventName)).data := congrArg String.data h
  simp only [extractFail, String.data_append] at h2
  have h3 := List.append_cancel_left h2
  simp only [notAPullRequestError, noPRNumberError, String.data_append] at h3
  have h4 := congrArg List.head? h3
  have h5 : (some 'I' : Option Char) = some 'C' := h4
  simp at h5

/-- When the explicit `PR_NUMBER` input does not resolve, the resolver
proceeds with the event context. -/
theorem resolve_explicit_none (env : ResolverEnv)
    (h : jsParseInt (trimString env.prNumberInput) = none) :
    resolvePRNumber env = resolveFromContext env := by
  rw [resolvePRNumber]
  split
  · simp [h]
  · rfl

/-- The plan-not-found error names the plan-file path. -/
theorem planFile_infix_planNotFoundError (planFile : String) (ep : Option String) :
    planFile.data <:+: (planNotFoundError planFile ep).data := by
  refine ⟨"Failed to extract plan: Plan not found. Checked ".data,
    (match ep with
     | none => ("" : String)
     | some p => " and " ++ p).data, ?_⟩
  cases ep <;> simp [planNotFoundError, String.data_append]

/-- A non-null plan-file value comes from readable content and is its trimmed
text. -/
theorem planFromFile_some (planState : PlanFileState) (q : String)
    (h : planFromFile planState = some q) :
    ∃ t, planState = .content t ∧ q = trimString t := by
  cases planState with
  | absent => exact absurd h (by simp [planFromFile])
  | unreadable e => exact absurd h (by simp [planFromFile])
  | content t => exact ⟨t, rfl, by simpa [planFromFile] using h.symm⟩

/-- `takeWhile` over a satisfying block followed by a failing element keeps
exactly the block. -/
theorem takeWhile_all_append (p : Char → Bool) (l : List Char) (b : Char)
    (r : List Char) (hl : ∀ c ∈ l, p c = true) (hb : p b = false) :
    (l ++ b :: r).takeWhile p = l := by
  induction l with
  | nil => simp [List.takeWhile_cons, hb]
  | cons c l ih =>
    rw [List.cons_append, List.takeWhile_cons, hl c (by simp)]
    rw [ih (fun d hd => hl d (by simp [hd]))]
    simp

/-- The first `pr-` tag of a text whose head block is `pr-`-free is the
explicit one. -/
theorem findAfterTag_append (l rest : List Char)
    (hl : ¬ ['p', 'r', '-'] <:+: l) :
    findAfterTag (l ++ 'p' :: 'r' :: '-' :: rest) = some rest := by
  induction l with
  | nil =>
    rw [List.nil_append, findAfterTag]
    have hc : (('p' == 'p') && (['r', '-'].isPrefixOf ('r' :: '-' :: rest))) = true := by
      refine Bool.and_eq_true _ _ ▸ ⟨by decide, ?_⟩
      exact List.isPrefixOf_iff_prefix.2 ⟨rest, rfl⟩
    rw [if_pos hc]
    simp
  | cons c l ih =>
    rw [List.cons_append, findAfterTag]
    by_cases hc : ((c == 'p') && (['r', '-'].isPrefixOf (l ++ 'p' :: 'r' :: '-' :: rest))) = true
    · exfalso
      obtain ⟨hcp, hpre⟩ := (Bool.and_eq_true _ _) ▸ hc
      have hc1 : c = 'p' := by simpa using hcp
      have hc2 := List.isPrefixOf_iff_prefix.1 hpre
      match l, hl, hc2 with
      | [], _, hc2 =>
        rw [List.nil_append, List.cons_prefix_cons] at hc2
        exact absurd hc2.1 (by decide)
      | [d], _, hc2 =>
        rw [List.cons_append, List.nil_append, List.cons_prefix_cons,
          List.cons_prefix_cons] at hc2
        exact absurd hc2.2.1 (by decide)
      | d :: e :: l'', hl, hc2 =>
        rw [List.cons_append, List.cons_append, List.cons_prefix_cons,
          List.cons_prefix_cons] at hc2
        exact hl (List.IsPrefix.isInfix ⟨l'', by simp [hc1, ← hc2.1, ← hc2.2.1]⟩)
    · rw [if_neg hc]
      exact ih (fun hinf => hl (List.infix_cons hinf))

/-! ## Claim theorems -/

/-- Claim C1 counterexample: substitution is sequential per key, so the value
substituted for `PR_DIFF` is re-scanned by the later `PR_BODY` pass: the
placeholder text `{{PR_BODY}}` inside it does not appear unchanged in the
output. -/
theorem substituteVariables_rescans_later_keys :
    substituteVariables "\x7b\x7bPR_DIFF\x7d\x7d"
        [("PR_DIFF", "\x7b\x7bPR_BODY\x7d\x7d"), ("PR_BODY", "the body")] = "the body" ∧
    substituteVariables "\x7b\x7bPR_DIFF\x7d\x7d"
        [("PR_DIFF", "\x7b\x7bPR_BODY\x7d\x7d"), ("PR_BODY", "the body")] ≠
      "\x7b\x7bPR_BODY\x7d\x7d" := by
  decide

/-- Claim C1 (amended): template substitution is one literal replacement pass
per mapping entry, applied sequentially in entry order; within a key's pass,
an occurrence of `{{KEY}}` preceded by brace-free text is replaced by the
value verbatim — the value is not re-scanned by that same pass, so
replacement-pattern sequences such as `$1`, or that key's own placeholder
text, inside the value appear unchanged after its pass — while values
substituted by earlier passes are re-scanned by later keys' passes. -/
theorem substituteVariables_sequential_passes (template k v : String)
    (rest : List (String × String)) (t0 t2 : String)
    (h0 : '\x7b' ∉ t0.data) :
    substituteVariables template ((k, v) :: rest) =
      substituteVariables (replaceVar template k v) rest ∧
    replaceVar (t0 ++ placeholderOf k ++ t2) k v = t0 ++ v ++ replaceVar t2 k v :=
  ⟨rfl, replaceVar_occurrence k v t0 t2 h0⟩

/-- Witness for C1 (amended) at a concrete pass: the value substituted for
`PR_BODY` contains `$1` and its own placeholder text, both spliced in
verbatim by that pass. -/
theorem substituteVariables_sequential_passes_witness :
    ('\x7b' ∉ ("A: " : String).data) ∧
    (substituteVariables "T" [("PR_BODY", "note $1 \x7b\x7bPR_BODY\x7d\x7d"), ("X", "y")] =
        substituteVariables (replaceVar "T" "PR_BODY" "note $1 \x7b\x7bPR_BODY\x7d\x7d")
          [("X", "y")] ∧
      replaceVar ("A: " ++ placeholderOf "PR_BODY" ++ "!") "PR_BODY"
          "note $1 \x7b\x7bPR_BODY\x7d\x7d" =
        "A: " ++ "note $1 \x7b\x7bPR_BODY\x7d\x7d" ++
          replaceVar "!" "PR_BODY" "note $1 \x7b\x7bPR_BODY\x7d\x7d") :=
  ⟨by decide,
   substituteVariables_sequential_passes "T" "PR_BODY" "note $1 \x7b\x7bPR_BODY\x7d\x7d"
     [("X", "y")] "A: " "!" (by decide)⟩

/-- Claim C2: for every PR-data fetch in which the diff-computation
subprocess fails, the fetch still returns successfully a snapshot whose
`diff` field is a non-empty bracketed placeholder containing the words
"Unable to fetch diff" and the error message; the `diff` field of a returned
snapshot is always present (it is a total field of `PRData`). -/
theorem fetchPRData_diff_degrades (prNumber : Int) (d : PullRequestQueryData) (e : String) :
    ∃ snap, fetchPRData prNumber (some d) (.error e) = .ok snap ∧
      snap.diff = diffPlaceholder e ∧
      snap.diff ≠ "" ∧
      snap.diff.data.head? = some '[' ∧
      snap.diff.data.getLast? = some ']' ∧
      ("Unable to fetch diff").data <:+: snap.diff.data ∧
      e.data <:+: snap.diff.data := by
  refine ⟨_, rfl, rfl, ?_, ?_, ?_, ?_, ?_⟩
  · intro h
    have h2 := congrArg String.data h
    rw [diffPlaceholder_data] at h2
    have h3 := congrArg List.length h2
    simp [String.data_append] at h3
  · exact rfl
  · rw [diffPlaceholder_data, show ("]" : String).data = [']'] from rfl]
    exact List.getLast?_concat _
  · exact ⟨"[".data, ": ".data ++ e.data ++ "]".data, by
      rw [diffPlaceholder_data]; rfl⟩
  · exact ⟨"[Unable to fetch diff: ".data, "]".data, by
      rw [diffPlaceholder_data]⟩

/-- Claim C3 counterexample: with no explicit number, no pull-request-event
number, and a network error in the issue lookup, the resolver fails with the
issue-specific "is not a pull request" error, not with the final failure
naming the event type. -/
theorem resolver_networkFailure_abortsEarly :
    (resolvePRNumber ⟨"", "issue_comment", "o/r", "token", "", "7",
        .networkError "timeout"⟩).result =
      .error (extractFail (notAPullRequestError 7)) ∧
    (resolvePRNumber ⟨"", "issue_comment", "o/r", "token", "", "7",
        .networkError "timeout"⟩).result ≠
      .error (extractFail (noPRNumberError "issue_comment")) := by
  decide

/-- Claim C3 (amended): with no explicit number and no pull-request-event
number, a network failure of the issue lookup is logged as a warning and
makes the lookup report no PR number; the resolver then aborts with the
issue-specific error naming the issue as not a pull request, after its single
network read, and never reaches the final failure naming the event type. -/
theorem resolvePRNumber_networkFailure_abortsWithIssueError (env : ResolverEnv)
    (issueNum : Int) (msg : String)
    (hexp : jsParseInt (trimString env.prNumberInput) = none)
    (htok : env.githubToken ≠ "")
    (hrepo : ∃ o r, parseRepository env.repository = .ok (o, r))
    (hpr : env.eventPullRequestNumber = "")
    (hiss : jsParseInt env.eventIssueNumber = some issueNum)
    (hnet : env.issueLookup = .networkError msg) :
    (resolvePRNumber env).result = .error (extractFail (notAPullRequestError issueNum)) ∧
    (resolvePRNumber env).warnings ≠ [] ∧
    (resolvePRNumber env).networkCalls = 1 ∧
    (resolvePRNumber env).result ≠ .error (extractFail (noPRNumberError env.eventName)) := by
  obtain ⟨o, r, hor⟩ := hrepo
  have hrne : env.repository ≠ "" := by
    intro he
    rw [he] at hor
    simp [parseRepository, splitOnChar, splitOnCharAux] at hor
  have hine : env.eventIssueNumber ≠ "" := by
    intro he
    rw [he] at hiss
    rw [show jsParseInt "" = (none : Option Int) from rfl] at hiss
    exact Option.noConfusion hiss
  have hfull : resolvePRNumber env =
      ⟨.error (extractFail (notAPullRequestError issueNum)), 1,
        [issueFetchWarning issueNum msg]⟩ := by
    rw [resolve_explicit_none env hexp]
    simp [resolveFromContext, hrne, htok, hor, hpr, resolveFromIssue, hine, hiss,
      hnet, extractPRNumberFromIssue]
  rw [hfull]
  refine ⟨rfl, by simp, rfl, ?_⟩
  intro hcontra
  simp only [Except.error.injEq] at hcontra
  exact issueError_ne_finalError issueNum env.eventName hcontra

/-- Witness for C3 (amended) at a concrete run: empty explicit input, an
issue-comment event with issue 9, and a reset connection. -/
theorem resolvePRNumber_networkFailure_abortsWithIssueError_witness :
    (resolvePRNumber ⟨"", "issue_comment", "org/repo", "tok", "", "9",
        .networkError "ECONNRESET"⟩).result =
      .error (extractFail (notAPullRequestError 9)) ∧
    (resolvePRNumber ⟨"", "issue_comment", "org/repo", "tok", "", "9",
        .networkError "ECONNRESET"⟩).warnings ≠ [] ∧
    (resolvePRNumber ⟨"", "issue_comment", "org/repo", "tok", "", "9",
        .networkError "ECONNRESET"⟩).networkCalls = 1 ∧
    (resolvePRNumber ⟨"", "issue_comment", "org/repo", "tok", "", "9",
        .networkError "ECONNRESET"⟩).result ≠
      .error (extractFail (noPRNumberError "issue_comment")) :=
  resolvePRNumber_networkFailure_abortsWithIssueError
    ⟨"", "issue_comment", "org/repo", "tok", "", "9", .networkError "ECONNRESET"⟩
    9 "ECONNRESET" (by decide) (by decide) ⟨"org", "repo", by decide⟩ rfl (by decide) rfl

/-- Claim C4 counterexample: a run whose environment carries the non-blank
plan `"use this plan"` emits a final prompt that is exactly the substituted
template, with no "Based on this plan" block prefixed. -/
theorem preparePrompt_plan_not_embedded :
    preparePromptMain ⟨"Hi \x7b\x7bPR_TITLE\x7d\x7d", "42", "tok", "o/r", "", "use this plan"⟩
        "main" (some ⟨"T", "B", some "alice", "dev", "sha1", some ["a.txt"]⟩) (.ok "D") =
      .ok ⟨"Hi T", "main", "42", "T", "alice", "B"⟩ ∧
    ¬ ("Based on this plan").data <:+: ("Hi T" : String).data := by
  decide

/-- Claim C4 (amended): prompt preparation performs no plan embedding: the
`PLAN` value in the stage environment is never read, and every successful run
emits as the final prompt exactly the substituted template. -/
theorem preparePrompt_no_plan_embedding (env : PreparePromptEnv) (defaultBranch : String)
    (queryResult : Option PullRequestQueryData) (diffResult : Except String String) :
    (∀ p, preparePromptMain { env with planEnv := p } defaultBranch queryResult diffResult =
        preparePromptMain env defaultBranch queryResult diffResult) ∧
    (∀ out, preparePromptMain env defaultBranch queryResult diffResult = .ok out →
        ∃ n prData, jsParseInt env.prNumberInput = some n ∧
          fetchPRData n queryResult diffResult = .ok prData ∧
          out.finalPrompt = substituteVariablesPR env.promptTemplate prData env.repository) := by
  constructor
  · intro p
    rfl
  · intro out h
    rw [preparePromptMain] at h
    split at h
    · exact absurd h (by simp)
    · split at h
      · exact absurd h (by simp)
      · rename_i n hn
        split at h
        · exact absurd h (by simp)
        · split at h
          · exact absurd h (by simp)
          · split at h
            · exact absurd h (by simp)
            · split at h
              · exact absurd h (by simp)
              · split at h
                · exact absurd h (by simp)
                · rename_i prData hfetch
                  refine ⟨n, prData, hn, hfetch, ?_⟩
                  simp only [Except.ok.injEq] at h
                  rw [← h]

/-- Witness for C4 (amended) at a concrete run: the plan value is ignored and
the emitted prompt is the substituted template. -/
theorem preparePrompt_no_plan_embedding_witness :
    preparePromptMain { (⟨"Hi \x7b\x7bPR_TITLE\x7d\x7d", "42", "tok", "o/r", "", ""⟩ :
          PreparePromptEnv) with planEnv := "use this plan" }
        "main" (some ⟨"T", "B", some "alice", "dev", "sha1", some ["a.txt"]⟩) (.ok "D") =
      preparePromptMain ⟨"Hi \x7b\x7bPR_TITLE\x7d\x7d", "42", "tok", "o/r", "", ""⟩
        "main" (some ⟨"T", "B", some "alice", "dev", "sha1", some ["a.txt"]⟩) (.ok "D") ∧
    ∃ n prData, jsParseInt "42" = some n ∧
      fetchPRData n (some ⟨"T", "B", some "alice", "dev", "sha1", some ["a.txt"]⟩)
        (.ok "D") = .ok prData ∧
      (⟨"Hi T", "main", "42", "T", "alice", "B"⟩ : PreparePromptOutputs).finalPrompt =
        substituteVariablesPR "Hi \x7b\x7bPR_TITLE\x7d\x7d" prData "o/r" :=
  ⟨(preparePrompt_no_plan_embedding
      ⟨"Hi \x7b\x7bPR_TITLE\x7d\x7d", "42", "tok", "o/r", "", ""⟩ "main"
      (some ⟨"T", "B", some "alice", "dev", "sha1", some ["a.txt"]⟩) (.ok "D")).1
      "use this plan",
   (preparePrompt_no_plan_embedding
      ⟨"Hi \x7b\x7bPR_TITLE\x7d\x7d", "42", "tok", "o/r", "", ""⟩ "main"
      (some ⟨"T", "B", some "alice", "dev", "sha1", some ["a.txt"]⟩) (.ok "D")).2
      ⟨"Hi T", "main", "42", "T", "alice", "B"⟩ (by decide)⟩

/-- Claim C5 counterexample: with the plan file absent and an execution file
holding an assistant message, the run succeeds from the execution file — an
extraction source other than the plan file. -/
theorem extractPlan_fallback_succeeds :
    extractPlanMain "/tmp/plan.txt" PlanFileState.absent
      (.parsed "/tmp/exec.json" [⟨"assistant", .str "Here is the plan"⟩]) =
      .ok "Here is the plan" := by
  decide

/-- Claim C5 (amended): plan extraction fails, naming the plan-file path in
the error, when the plan file yields no non-blank text and the execution-file
fallback yields nothing; a non-blank plan file is used as-is (trimmed); and
every successful run returns either the trimmed plan-file content or the text
extracted from the configured execution file. -/
theorem extractPlan_sources (planFile : String) (planState : PlanFileState)
    (execState : ExecutionFileState) :
    ((∀ t, planState = .content t → trimString t = "") →
      (∀ p msgs, execState = .parsed p msgs → extractPlanFromExecutionFile msgs = none) →
      ∃ m, extractPlanMain planFile planState execState = .error m ∧
        planFile.data <:+: m.data) ∧
    (∀ t, planState = .content t → trimString t ≠ "" →
      extractPlanMain planFile planState execState = .ok (trimString t)) ∧
    (∀ p, extractPlanMain planFile planState execState = .ok p →
      (∃ t, planState = .content t ∧ p = trimString t) ∨
      (∃ path msgs, execState = .parsed path msgs ∧
        extractPlanFromExecutionFile msgs = some p)) := by
  refine ⟨?_, ?_, ?_⟩
  · intro hblank hfb
    refine ⟨planNotFoundError planFile (execFilePath execState), ?_,
      planFile_infix_planNotFoundError planFile _⟩
    have hpf : (planFromFile planState).getD "" = "" := by
      cases planState with
      | absent => rfl
      | unreadable e => rfl
      | content t => simpa [planFromFile] using hblank t rfl
    have hpande : planAfterFallback planState execState = none ∨
        planAfterFallback planState execState = some "" := by
      rw [planAfterFallback, if_pos hpf]
      cases execState with
      | notConfigured =>
        cases planState with
        | absent => exact .inl rfl
        | unreadable e => exact .inl rfl
        | content t => exact .inr (by simp [fallbackPlan, planFromFile, hblank t rfl])
      | missing p =>
        cases planState with
        | absent => exact .inl rfl
        | unreadable e => exact .inl rfl
        | content t => exact .inr (by simp [fallbackPlan, planFromFile, hblank t rfl])
      | unparseable p e => exact .inl rfl
      | parsed p msgs =>
        simp only [fallbackPlan]
        exact .inl (hfb p msgs rfl)
    rw [extractPlanMain]
    rcases hpande with hnone | hsome
    · rw [hnone]
    · rw [hsome]
      simp
  · intro t hpt hne
    subst hpt
    have hpf : ¬ (planFromFile (PlanFileState.content t)).getD "" = "" := by
      simpa [planFromFile] using hne
    rw [extractPlanMain, planAfterFallback, if_neg hpf]
    simp [planFromFile, hne]
  · intro p h
    rw [extractPlanMain] at h
    split at h
    · rename_i q hpa
      split at h
      · exact absurd h (by simp)
      · rename_i hq
        have hpq : q = p := by simpa using h
        subst hpq
        rw [planAfterFallback] at hpa
        split at hpa
        · cases execState with
          | parsed path msgs => exact .inr ⟨path, msgs, rfl, hpa⟩
          | unparseable path err => exact absurd hpa (by simp [fallbackPlan])
          | missing path =>
            simp only [fallbackPlan] at hpa
            exact .inl (planFromFile_some planState q hpa)
          | notConfigured =>
            simp only [fallbackPlan] at hpa
            exact .inl (planFromFile_some planState q hpa)
        · exact .inl (planFromFile_some planState q hpa)
    · rename_i hpa
      exact absurd h (by simp)

/-- Witness for C5 (amended) at concrete runs: a missing plan file with no
fallback, a non-blank plan file, and a successful run's source. -/
theorem extractPlan_sources_witness :
    (∃ m, extractPlanMain "/tmp/plan.txt" PlanFileState.absent .notConfigured = .error m ∧
      ("/tmp/plan.txt").data <:+: m.data) ∧
    extractPlanMain "/tmp/plan.txt" (.content " hi ") .notConfigured = .ok (trimString " hi ") ∧
    ((∃ t, (PlanFileState.content " hi ") = PlanFileState.content t ∧ "hi" = trimString t) ∨
      (∃ path msgs, (ExecutionFileState.notConfigured : ExecutionFileState) =
          .parsed path msgs ∧ extractPlanFromExecutionFile msgs = some "hi")) :=
  ⟨(extractPlan_sources "/tmp/plan.txt" PlanFileState.absent .notConfigured).1
      (fun t ht => by cases ht) (fun p msgs hm => by cases hm),
   (extractPlan_sources "/tmp/plan.txt" (.content " hi ") .notConfigured).2.1
      " hi " rfl (by decide),
   (extractPlan_sources "/tmp/plan.txt" (.content " hi ") .notConfigured).2.2
      "hi" (by decide)⟩

/-- Claim C6 counterexample: with provider `codex`, capture disabled, and no
OpenAI key, the runner fails naming the missing key, not the implementation
mode. -/
theorem runCodex_missing_key_precedes_capture_guard :
    runLLM ⟨"codex", "do it", false, "", "", ""⟩ ⟨true, true, .ok "done"⟩ =
      (⟨false, none, some "OPENAI_API_KEY is required for Codex"⟩, 0) ∧
    ¬ ("codex-action").data <:+: ("OPENAI_API_KEY is required for Codex" : String).data := by
  decide

/-- Claim C6 (amended): with provider `codex`, the capture-output flag
disabled, and an OpenAI key present, the runner fails immediately with a
`{success := false, error}` result naming that Codex implementation phase
must use codex-action directly in the workflow, and no CLI subprocess is
launched; without a key it fails naming `OPENAI_API_KEY` first, also with no
subprocess. -/
theorem runLLM_codex_implementation_mode_fails (config : RunLLMConfig) (w : CLIWorld)
    (hp : config.provider = "codex") (hk : config.openaiApiKey ≠ "")
    (hc : config.captureOutput = false) :
    runLLM config w = (⟨false, none, some codexImplementationModeError⟩, 0) ∧
    ("codex-action").data <:+: codexImplementationModeError.data ∧
    ("implementation phase").data <:+: codexImplementationModeError.data := by
  refine ⟨?_, by decide, by decide⟩
  simp [runLLM, hp, runCodex, hk, hc]

/-- Witness for C6 (amended) at a concrete configuration with a key present
and capture output disabled. -/
theorem runLLM_codex_implementation_mode_fails_witness :
    runLLM ⟨"codex", "do it", false, "", "", "sk-key"⟩ ⟨true, true, .ok "done"⟩ =
      (⟨false, none, some codexImplementationModeError⟩, 0) ∧
    ("codex-action").data <:+: codexImplementationModeError.data ∧
    ("implementation phase").data <:+: codexImplementationModeError.data :=
  runLLM_codex_implementation_mode_fails
    ⟨"codex", "do it", false, "", "", "sk-key"⟩ ⟨true, true, .ok "done"⟩
    rfl (by decide) rfl

/-- Claim C7: an explicit PR-number input `"42"` resolves to 42 with no
network call, regardless of the event-context variables also set. -/
theorem resolvePRNumber_explicit_42 (env : ResolverEnv)
    (hexp : env.prNumberInput = "42") :
    (resolvePRNumber env).result = .ok 42 ∧
    (resolvePRNumber env).networkCalls = 0 := by
  have h1 : env.prNumberInput ≠ "" ∧ trimString env.prNumberInput ≠ "" := by
    rw [hexp]
    exact ⟨by decide, by decide⟩
  have h2 : jsParseInt (trimString env.prNumberInput) = some 42 := by
    rw [hexp]
    decide
  rw [resolvePRNumber, if_pos h1, h2]
  exact ⟨rfl, rfl⟩

/-- Witness for C7 at a concrete run whose event context is fully populated
with conflicting numbers. -/
theorem resolvePRNumber_explicit_42_witness :
    (resolvePRNumber ⟨"42", "issue_comment", "o/r", "tok", "99", "5",
        .found (some "https://api.github.test/repos/o/r/pulls/77")⟩).result = .ok 42 ∧
    (resolvePRNumber ⟨"42", "issue_comment", "o/r", "tok", "99", "5",
        .found (some "https://api.github.test/repos/o/r/pulls/77")⟩).networkCalls = 0 :=
  resolvePRNumber_explicit_42
    ⟨"42", "issue_comment", "o/r", "tok", "99", "5",
      .found (some "https://api.github.test/repos/o/r/pulls/77")⟩ rfl

/-- Claim C8: when the working-tree status check reports no changes, or the
status check itself fails, commit-and-push outputs `has_changes = false`,
returns without error, and invokes neither `git commit` nor `git push`. -/
theorem commitAndPush_noChanges_frame (branchName : String)
    (statusResult : Except String String) (gitRun : GitCmd → Except String Unit)
    (hb : branchName ≠ "")
    (hnc : (∃ out, statusResult = .ok out ∧ trimString out = "") ∨
           (∃ e, statusResult = .error e)) :
    (commitAndPushMain branchName statusResult gitRun).result = .ok () ∧
    (commitAndPushMain branchName statusResult gitRun).hasChanges = some false ∧
    GitCmd.commit ∉ (commitAndPushMain branchName statusResult gitRun).commands ∧
    GitCmd.push ∉ (commitAndPushMain branchName statusResult gitRun).commands := by
  rcases hnc with ⟨out, ho, ht⟩ | ⟨e, he⟩
  · subst ho
    refine ⟨?_, ?_, ?_, ?_⟩ <;> simp [commitAndPushMain, hb, ht]
  · subst he
    refine ⟨?_, ?_, ?_, ?_⟩ <;> simp [commitAndPushMain, hb]

/-- Witness for C8 at a concrete run with a whitespace-only status output. -/
theorem commitAndPush_noChanges_frame_witness :
    (commitAndPushMain "ai/pr-1-2" (.ok "  \n") (fun _ => .ok ())).result = .ok () ∧
    (commitAndPushMain "ai/pr-1-2" (.ok "  \n") (fun _ => .ok ())).hasChanges = some false ∧
    GitCmd.commit ∉ (commitAndPushMain "ai/pr-1-2" (.ok "  \n") (fun _ => .ok ())).commands ∧
    GitCmd.push ∉ (commitAndPushMain "ai/pr-1-2" (.ok "  \n") (fun _ => .ok ())).commands :=
  commitAndPush_noChanges_frame "ai/pr-1-2" (.ok "  \n") (fun _ => .ok ())
    (by decide) (.inl ⟨"  \n", rfl, by decide⟩)

/-- Claim C9 counterexample: at prefix `pr-1-`, PR number `42` and timestamp
420, the generated branch name `pr-1-pr-42-420` does not contain the PR
number exactly once (the timestamp repeats its digits), and parsing the first
`pr-{N}-` segment does not recover 42. -/
theorem generatedBranchName_claim_counterexample :
    generatedBranchName "pr-1-" "42" 420 = "pr-1-pr-42-420" ∧
    countOccurrences ("42").data ("pr-1-pr-42-420").data ≠ 1 ∧
    recoverPRNumber "pr-1-pr-42-420" ≠ some 42 := by
  decide

/-- Claim C9 (amended): for every prefix, digit-string PR number and
timestamp, the generated branch name has the form
`{prefix}pr-{number}-{timestamp}` with the prefix defaulting to `ai/`, and it
contains the PR number's digits and the supplied prefix at least once; when
the effective prefix contains no `pr-` segment (as the default `ai/` does
not), the PR number is recovered from the branch name by parsing the first
`pr-{N}-` segment. -/
theorem generatedBranchName_roundTrip (branchPrefix prNumber : String) (ts : Nat)
    (hpfx : ¬ ['p', 'r', '-'] <:+:
      (if branchPrefix = "" then "ai/" else branchPrefix).data)
    (hnum : prNumber.data ≠ [] ∧ ∀ c ∈ prNumber.data, c.isDigit = true) :
    (generatedBranchName branchPrefix prNumber ts).data =
      (if branchPrefix = "" then "ai/" else branchPrefix).data ++
        ('p' :: 'r' :: '-' :: (prNumber.data ++ '-' :: natDigits ts)) ∧
    prNumber.data <:+: (generatedBranchName branchPrefix prNumber ts).data ∧
    (if branchPrefix = "" then "ai/" else branchPrefix).data <:+:
      (generatedBranchName branchPrefix prNumber ts).data ∧
    recoverPRNumber (generatedBranchName branchPrefix prNumber ts) =
      some (digitsToNat prNumber.data) := by
  have hdata : (generatedBranchName branchPrefix prNumber ts).data =
      (if branchPrefix = "" then "ai/" else branchPrefix).data ++
        ('p' :: 'r' :: '-' :: (prNumber.data ++ '-' :: natDigits ts)) := by
    simp [generatedBranchName, String.data_append, natToString, List.append_assoc]
  refine ⟨hdata, ?_, ?_, ?_⟩
  · rw [hdata]
    refine ⟨(if branchPrefix = "" then "ai/" else branchPrefix).data ++
      ['p', 'r', '-'], '-' :: natDigits ts, ?_⟩
    simp [List.append_assoc]
  · rw [hdata]
    exact (List.prefix_append _ _).isInfix
  · simp only [recoverPRNumber, hdata, findAfterTag_append _ _ hpfx]
    rw [takeWhile_all_append Char.isDigit prNumber.data '-' (natDigits ts)
      hnum.2 (by decide)]
    rw [if_neg (by simp [hnum.1])]
    simp

/-- Witness for C9 (amended) at the default prefix `ai/`, PR number `"42"`
and a millisecond timestamp. -/
theorem generatedBranchName_roundTrip_witness :
    (¬ ['p', 'r', '-'] <:+:
      (if ("ai/" : String) = "" then "ai/" else "ai/").data) ∧
    recoverPRNumber (generatedBranchName "ai/" "42" 1234567890) =
      some (digitsToNat ("42" : String).data) ∧
    digitsToNat ("42" : String).data = 42 :=
  ⟨by decide,
   (generatedBranchName_roundTrip "ai/" "42" 1234567890 (by decide)
     ⟨by decide, by decide⟩).2.2.2,
   by decide⟩

/-- Claim C10: a non-empty explicit PR-number input whose trimmed value does
not parse as an integer (e.g. `"abc"`) is silently ignored: resolution
proceeds exactly as if no explicit number had been supplied. -/
theorem resolvePRNumber_malformed_explicit_ignored (env : ResolverEnv)
    (_hne : env.prNumberInput ≠ "")
    (hbad : jsParseInt (trimString env.prNumberInput) = none) :
    resolvePRNumber env = resolvePRNumber { env with prNumberInput := "" } := by
  obtain ⟨a, b, c, d, e, f, g⟩ := env
  have h0 : jsParseInt (trimString ("" : String)) = none := by decide
  rw [resolve_explicit_none _ hbad, resolve_explicit_none _ h0]
  rfl

/-- Witness for C10 at the concrete malformed input `"abc"`. -/
theorem resolvePRNumber_malformed_explicit_ignored_witness :
    resolvePRNumber ⟨"abc", "push", "o/r", "tok", "9", "", .found none⟩ =
      resolvePRNumber ⟨"", "push", "o/r", "tok", "9", "", .found none⟩ :=
  resolvePRNumber_malformed_explicit_ignored
    ⟨"abc", "push", "o/r", "tok", "9", "", .found none⟩ (by decide) (by decide)

end GithubAIActions
